import Mathlib

/-
Verification of the frustration-detection state machine of the Debug Duck
repository (pi-sentry/fer_service.py), the button debouncer
(pi-sentry/button_listener.py), and the construction / error-handling
behaviour the specification ascribes to them.

The detector logic lives in the emotion-handling branch of
FERService._monitor_loop; it is embedded here as a pure step function on the
integer counter `frustration_counter`, with the classified emotion of a frame
given as `Option String` exactly as `detect_emotion` produces it (None when no
face is found or confidence is below threshold, otherwise one of the strings
in EMOTIONS).
-/

namespace DebugDuck

/-- EMOTIONS from fer_service.py: the labels the classifier can emit. -/
def EMOTIONS : List String :=
  ["angry", "disgust", "fear", "happy", "neutral", "sad", "surprise"]

/-- FRUSTRATION_EMOTIONS from fer_service.py: the labels counted as frustration. -/
def FRUSTRATION_EMOTIONS : List String := ["angry", "disgust", "sad"]

/-- Embedding of the emotion-handling branch of FERService._monitor_loop
(fer_service.py, the body guarded by the frame-skip test) as a pure step:
given the configured FRUSTRATION_THRESHOLD, the current value of
self.frustration_counter, and the emotion returned by detect_emotion for this
frame, it returns the new counter together with whether this observation
fired (i.e. reached the threshold and called self._trigger_empathy).

Source, line by line:
- `if emotion:`             — Python truthiness: None and the empty string are
                              falsy, so those frames change nothing;
- `if emotion in FRUSTRATION_EMOTIONS:` — increment branch:
    `self.frustration_counter += 1`, then
    `if self.frustration_counter >= FRUSTRATION_THRESHOLD:` fire and
    `self.frustration_counter = 0`;
- `else:` (present, not frustration) —
    `if self.frustration_counter > 0:`
    `self.frustration_counter = max(0, self.frustration_counter - 2)`. -/
def observeStep (threshold : Int) (counter : Int) (emotion : Option String) :
    Int × Bool :=
  match emotion with
  | none => (counter, false)
  | some e =>
    if e = "" then (counter, false)
    else if e ∈ FRUSTRATION_EMOTIONS then
      let c := counter + 1
      if threshold ≤ c then (0, true) else (c, false)
    else if 0 < counter then (max 0 (counter - 2), false)
    else (counter, false)

/-- Iterating observeStep over a sequence of per-frame observations, recording
after each observation the counter value and whether that observation fired.
This is the trace of successive loop iterations of _monitor_loop. -/
def runTrace (threshold : Int) (counter : Int) :
    List (Option String) → List (Int × Bool)
  | [] => []
  | e :: rest =>
    let r := observeStep threshold counter e
    r :: runTrace threshold r.1 rest

/-- An observation is a frustration observation when a face was present and its
label is in FRUSTRATION_EMOTIONS. -/
def isFrustObs : Option String → Bool
  | none => false
  | some e => decide (e ∈ FRUSTRATION_EMOTIONS)

lemma frust_mem_of_isFrustObs {e : Option String} (h : isFrustObs e = true) :
    ∃ x, e = some x ∧ x ∈ FRUSTRATION_EMOTIONS := by
  cases e with
  | none => simp [isFrustObs] at h
  | some x =>
    refine ⟨x, rfl, ?_⟩
    simpa [isFrustObs] using h

lemma frust_ne_empty : ∀ x ∈ FRUSTRATION_EMOTIONS, x ≠ "" := by decide

/-- Step result on a frustration observation: increment, and fire exactly when
the incremented counter reaches the threshold. -/
lemma observeStep_frust (threshold counter : Int) {x : String}
    (hx : x ∈ FRUSTRATION_EMOTIONS) :
    observeStep threshold counter (some x) =
      if threshold ≤ counter + 1 then (0, true) else (counter + 1, false) := by
  simp only [observeStep, if_neg (frust_ne_empty x hx), if_pos hx]

/-- Unfolding lemma for runTrace on a cons cell. -/
lemma runTrace_cons (t s : Int) (e : Option String) (rest : List (Option String)) :
    runTrace t s (e :: rest) =
      observeStep t s e :: runTrace t (observeStep t s e).1 rest := rfl

/-- Running only frustration observations from a counter value that stays
strictly below the threshold: no observation fires. -/
lemma runTrace_frust_noFire (threshold : Int) :
    ∀ (ls : List (Option String)) (s : Int),
      (∀ e ∈ ls, isFrustObs e = true) → 0 ≤ s →
      s + ls.length < threshold →
      (runTrace threshold s ls).map Prod.snd = List.replicate ls.length false := by
  intro ls
  induction ls with
  | nil => intro s _ _ _; simp [runTrace]
  | cons e rest ih =>
    intro s hall hs hlt
    obtain ⟨x, rfl, hx⟩ := frust_mem_of_isFrustObs (hall _ (List.mem_cons_self _ rest))
    simp only [List.length_cons] at hlt
    have hnot : ¬ threshold ≤ s + 1 := by omega
    have hstep : observeStep threshold s (some x) = (s + 1, false) := by
      rw [observeStep_frust threshold s hx, if_neg hnot]
    rw [runTrace_cons, hstep]
    simp only [List.map_cons, List.length_cons, List.replicate_succ]
    exact congrArg₂ List.cons rfl
      (ih (s + 1) (fun a ha => hall a (List.mem_cons_of_mem _ ha)) (by omega) (by omega))

/-- Running frustration observations whose count exactly reaches the threshold:
every observation but the last leaves the fired flag false, and the last one
fires. -/
lemma runTrace_frust_fire (threshold : Int) :
    ∀ (ls : List (Option String)) (s : Int), ls ≠ [] →
      (∀ e ∈ ls, isFrustObs e = true) → 0 ≤ s →
      s + ls.length = threshold →
      (runTrace threshold s ls).map Prod.snd =
        List.replicate (ls.length - 1) false ++ [true] := by
  intro ls
  induction ls with
  | nil => intro s hne _ _ _; exact absurd rfl hne
  | cons e rest ih =>
    intro s _ hall hs heq
    obtain ⟨x, rfl, hx⟩ := frust_mem_of_isFrustObs (hall _ (List.mem_cons_self _ rest))
    cases rest with
    | nil =>
      simp only [List.length_cons, List.length_nil] at heq
      have hfire : threshold ≤ s + 1 := by omega
      simp [runTrace, observeStep_frust threshold s hx, if_pos hfire]
    | cons r rs =>
      simp only [List.length_cons] at heq
      have hnot : ¬ threshold ≤ s + 1 := by omega
      have hstep : observeStep threshold s (some x) = (s + 1, false) := by
        rw [observeStep_frust threshold s hx, if_neg hnot]
      have htail := ih (s + 1) (List.cons_ne_nil r rs)
        (fun a ha => hall a (List.mem_cons_of_mem _ ha)) (by omega)
        (by simp only [List.length_cons]; omega)
      rw [runTrace_cons, hstep]
      simp only [List.map_cons]
      rw [htail]
      simp [List.replicate_succ]

/-- C1. Starting from counter 0, a sequence of exactly `threshold` frustration
observations (no interleaved absent or calm frames) fires exactly on the
threshold-th observation and on none of the earlier ones: the per-observation
fired flags are threshold - 1 times false followed by one true. -/
theorem spec_C1 (threshold : Int) (ht : 0 < threshold)
    (ls : List (Option String)) (hall : ∀ e ∈ ls, isFrustObs e = true)
    (hlen : ls.length = threshold.toNat) :
    (runTrace threshold 0 ls).map Prod.snd =
      List.replicate (threshold.toNat - 1) false ++ [true] := by
  have hne : ls ≠ [] := by
    intro h
    rw [h] at hlen
    simp only [List.length_nil] at hlen
    omega
  have heq : (0 : Int) + ls.length = threshold := by
    rw [hlen]
    simp [Int.toNat_of_nonneg (le_of_lt ht)]
  rw [← hlen]
  exact runTrace_frust_fire threshold ls 0 hne hall le_rfl heq

/-- Witness for C1 at threshold 3 with the sequence angry, angry, sad. -/
theorem spec_C1_witness :
    (0 : Int) < 3 ∧
      (runTrace 3 0 [some "angry", some "angry", some "sad"]).map Prod.snd =
        List.replicate ((3 : Int).toNat - 1) false ++ [true] :=
  ⟨by decide,
    spec_C1 3 (by decide) [some "angry", some "angry", some "sad"]
      (by decide) (by decide)⟩

/-- Any observation that fires leaves the counter reset to 0: the only firing
branch of _monitor_loop sets self.frustration_counter = 0 right after calling
self._trigger_empathy. -/
lemma observeStep_fired_reset (t s : Int) (e : Option String)
    (h : (observeStep t s e).2 = true) : (observeStep t s e).1 = 0 := by
  cases e with
  | none => simp [observeStep] at h
  | some x =>
    by_cases he : x = ""
    · simp [observeStep, he] at h
    by_cases hf : x ∈ FRUSTRATION_EMOTIONS
    · by_cases hfire : t ≤ s + 1
      · simp [observeStep, he, hf, hfire]
      · simp [observeStep, he, hf, hfire] at h
    · by_cases hpos : 0 < s
      · simp [observeStep, he, hf, hpos] at h
      · simp [observeStep, he, hf, hpos] at h

/-- One step keeps the counter inside the interval from 0 to the threshold. -/
lemma observeStep_bounds (t : Int) (ht : 0 < t) (s : Int) (e : Option String)
    (h0 : 0 ≤ s) (h1 : s ≤ t) :
    0 ≤ (observeStep t s e).1 ∧ (observeStep t s e).1 ≤ t := by
  cases e with
  | none => simpa [observeStep] using ⟨h0, h1⟩
  | some x =>
    by_cases he : x = ""
    · simp [observeStep, he]; omega
    by_cases hf : x ∈ FRUSTRATION_EMOTIONS
    · by_cases hfire : t ≤ s + 1
      · simp [observeStep, he, hf, hfire]; omega
      · simp [observeStep, he, hf, hfire]; omega
    · by_cases hpos : 0 < s
      · simp [observeStep, he, hf, hpos]; omega
      · simp [observeStep, he, hf, hpos]; omega

/-- Along any run started in the interval from 0 to the threshold, every
recorded counter value stays in that interval. -/
lemma runTrace_bounds (t : Int) (ht : 0 < t) :
    ∀ (ls : List (Option String)) (s : Int), 0 ≤ s → s ≤ t →
      ∀ p ∈ runTrace t s ls, 0 ≤ p.1 ∧ p.1 ≤ t := by
  intro ls
  induction ls with
  | nil => intro s _ _ p hp; simp [runTrace] at hp
  | cons e rest ih =>
    intro s hs0 hs1 p hp
    rw [runTrace_cons] at hp
    rcases List.mem_cons.mp hp with h | h
    · rw [h]
      exact observeStep_bounds t ht s e hs0 hs1
    · have hb := observeStep_bounds t ht s e hs0 hs1
      exact ih (observeStep t s e).1 hb.1 hb.2 p h

/-- Calm observations at counter 0 leave the counter at 0 and never fire. -/
lemma runTrace_calm_zero (t : Int) (x : String) (hne : x ≠ "")
    (hnf : x ∉ FRUSTRATION_EMOTIONS) :
    ∀ n : ℕ, runTrace t 0 (List.replicate n (some x)) =
      List.replicate n ((0 : Int), false) := by
  intro n
  induction n with
  | zero => simp [runTrace]
  | succ k ihk =>
    rw [List.replicate_succ, runTrace_cons]
    have hstep : observeStep t 0 (some x) = (0, false) := by
      simp [observeStep, hne, hnf]
    rw [hstep, List.replicate_succ]
    exact congrArg₂ List.cons rfl ihk

/-- A frustration observation whose incremented count reaches or exceeds the
threshold fires and resets within that same step. -/
lemma observeStep_fires_at_threshold (t s : Int) {e : Option String}
    (hf : isFrustObs e = true) (hge : t ≤ s + 1) :
    observeStep t s e = (0, true) := by
  obtain ⟨x, rfl, hx⟩ := frust_mem_of_isFrustObs hf
  rw [observeStep_frust t s hx, if_pos hge]

/-- C2. Starting from counter 0 the counter stays in the interval from 0 to
the threshold at every step; it never goes negative, any number of calm
observations at counter 0 leave it at 0 without ever firing, and whenever an
observation brings the count to the threshold or beyond it fires and resets
to 0 within that same observation. -/
theorem spec_C2 (threshold : Int) (ht : 0 < threshold) :
    (∀ (ls : List (Option String)) (p : Int × Bool),
        p ∈ runTrace threshold 0 ls → 0 ≤ p.1 ∧ p.1 ≤ threshold) ∧
    (∀ (n : ℕ) (x : String), x ≠ "" → x ∉ FRUSTRATION_EMOTIONS →
        runTrace threshold 0 (List.replicate n (some x)) =
          List.replicate n ((0 : Int), false)) ∧
    (∀ (s : Int) (e : Option String), isFrustObs e = true →
        threshold ≤ s + 1 → observeStep threshold s e = (0, true)) := by
  refine ⟨?_, ?_, ?_⟩
  · intro ls p hp
    exact runTrace_bounds threshold ht ls 0 le_rfl (le_of_lt ht) p hp
  · intro n x hne hnf
    exact runTrace_calm_zero threshold x hne hnf n
  · intro s e hf hge
    exact observeStep_fires_at_threshold threshold s hf hge

/-- Witness for C2 at threshold 3: a state of the run of a single angry
observation is bounded, two calm observations at 0 stay at 0, and an angry
observation at counter 2 fires and resets. -/
theorem spec_C2_witness :
    (0 : Int) < 3 ∧ (0 ≤ (1 : Int) ∧ (1 : Int) ≤ 3) ∧
      runTrace 3 0 (List.replicate 2 (some "happy")) =
        List.replicate 2 ((0 : Int), false) ∧
      observeStep 3 2 (some "angry") = (0, true) :=
  ⟨by decide,
    (spec_C2 3 (by decide)).1 [some "angry"] (1, false) (by decide),
    (spec_C2 3 (by decide)).2.1 2 "happy" (by decide) (by decide),
    (spec_C2 3 (by decide)).2.2 2 (some "angry") (by decide) (by decide)⟩

/-- C3. A firing observation resets the counter to 0 unconditionally within
that observation, and the next threshold - 1 consecutive frustration
observations after the fire do not fire. -/
theorem spec_C3 (threshold : Int) (ht : 0 < threshold) (s : Int)
    (e : Option String) (hfire : (observeStep threshold s e).2 = true)
    (ls : List (Option String)) (hall : ∀ x ∈ ls, isFrustObs x = true)
    (hlen : ls.length = threshold.toNat - 1) :
    (observeStep threshold s e).1 = 0 ∧
      (runTrace threshold (observeStep threshold s e).1 ls).map Prod.snd =
        List.replicate (threshold.toNat - 1) false := by
  have hreset := observeStep_fired_reset threshold s e hfire
  refine ⟨hreset, ?_⟩
  rw [hreset, ← hlen]
  refine runTrace_frust_noFire threshold ls 0 hall le_rfl ?_
  rw [hlen]
  omega

/-- Witness for C3 at threshold 3: after the fire produced by an angry
observation at counter 2, the next two frustration observations do not fire. -/
theorem spec_C3_witness :
    (0 : Int) < 3 ∧ (observeStep 3 2 (some "angry")).1 = 0 ∧
      (runTrace 3 (observeStep 3 2 (some "angry")).1
          [some "disgust", some "sad"]).map Prod.snd =
        List.replicate ((3 : Int).toNat - 1) false :=
  ⟨by decide,
    (spec_C3 3 (by decide) 2 (some "angry") (by decide)
        [some "disgust", some "sad"] (by decide) (by decide)).1,
    (spec_C3 3 (by decide) 2 (some "angry") (by decide)
        [some "disgust", some "sad"] (by decide) (by decide)).2⟩

/-- C4. An absent observation leaves the counter unchanged and does not fire,
and removing all absent observations from a sequence yields exactly the
remaining observations' counter values and fired flags: the trace of the
filtered sequence equals the original trace restricted to the positions whose
observation was present. -/
theorem spec_C4 (threshold s : Int) (ls : List (Option String)) :
    observeStep threshold s none = (s, false) ∧
      runTrace threshold s (ls.filter (fun e => e.isSome)) =
        ((ls.zip (runTrace threshold s ls)).filter
            (fun p => p.1.isSome)).map Prod.snd := by
  refine ⟨rfl, ?_⟩
  induction ls generalizing s with
  | nil => rfl
  | cons e rest ih =>
    cases e with
    | none =>
      rw [runTrace_cons]
      simpa [observeStep, List.filter_cons] using ih s
    | some x =>
      have h := ih (observeStep threshold s (some x)).1
      rw [runTrace_cons]
      simp only [List.zip_cons_cons, List.filter_cons, Option.isSome_some,
        if_true, List.map_cons]
      rw [runTrace_cons]
      exact congrArg₂ List.cons rfl h

/-- C10. Only a frustration-set observation can fire: if an observation fires
then a face was present and its label was in FRUSTRATION_EMOTIONS, because
the threshold test runs only in the increment branch of _monitor_loop, never
after a decay or a no-op. -/
theorem spec_C10 (threshold s : Int) (e : Option String)
    (hfire : (observeStep threshold s e).2 = true) :
    isFrustObs e = true := by
  cases e with
  | none => simp [observeStep] at hfire
  | some x =>
    by_cases he : x = ""
    · simp [observeStep, he] at hfire
    by_cases hf : x ∈ FRUSTRATION_EMOTIONS
    · simp [isFrustObs, hf]
    · by_cases hpos : 0 < s
      · simp [observeStep, he, hf, hpos] at hfire
      · simp [observeStep, he, hf, hpos] at hfire

/-- Witness for C10: the firing observation at threshold 1 carries the label
angry, which is in the frustration set. -/
theorem spec_C10_witness : isFrustObs (some "angry") = true :=
  spec_C10 1 0 (some "angry") (by decide)

/-- ConfigError is the exception the specification names for invalid
threshold/decay configuration. The source (fer_service.py) defines no such
exception class; the type is introduced here only so that the claimed failure
mode is expressible. -/
inductive ConfigError
  | invalidThreshold
  | invalidDecayStep
deriving DecidableEq, Repr

/-- Detector-relevant attributes set by FERService.__init__: self.running =
False and self.frustration_counter = 0. The model/camera handles the
constructor also touches are external I/O collaborators and carry no detector
state. -/
structure FERServiceState where
  running : Bool
  frustration_counter : Int
deriving DecidableEq, Repr

/-- Embedding of the configuration-relevant behaviour of FERService.__init__
(fer_service.py). The threshold is read from the environment as
FRUSTRATION_THRESHOLD = int(os.environ.get("FER_FRUSTRATION_THRESHOLD", 100))
and the decay step is the literal 2 in the loop body; __init__ contains no
validation of either value and no code path that raises a configuration
error, so construction succeeds for every threshold and decay step. The
Except return type exists solely to make the spec's claimed ConfigError
failure mode expressible. -/
def initFERService (threshold decayStep : Int) :
    Except ConfigError FERServiceState :=
  Except.ok { running := false, frustration_counter := 0 }

/-- Counterexample to C5 as stated: constructing the detector with
threshold = 0 (which is ≤ 0) succeeds rather than failing with a
ConfigError. -/
theorem spec_C5_counterexample :
    initFERService 0 2 = Except.ok { running := false, frustration_counter := 0 } :=
  rfl

/-- C5 amended. Construction never fails on configuration values: __init__
performs no validation of the threshold or the decay step, so it succeeds for
every threshold and decay step, including non-positive ones. -/
theorem spec_C5 (threshold decayStep : Int) :
    initFERService threshold decayStep =
      Except.ok { running := false, frustration_counter := 0 } :=
  rfl

/-- Counterexample to C6 as stated: an observation with the present label
"bored", which is outside the recognized EMOTIONS set, does not fail with an
InvalidLabelError; it is silently treated exactly like the calm label
"happy" (decay applies: counter 5 becomes 3). -/
theorem spec_C6_counterexample :
    observeStep 100 5 (some "bored") = (3, false) ∧
      observeStep 100 5 (some "happy") = (3, false) := by
  constructor <;> decide

/-- C6 amended. observeStep is a total function that never fails for any
input, and a present non-empty label outside the frustration set — whether or
not it belongs to the recognized EMOTIONS set — is silently treated as a calm
label: it behaves exactly like the recognized calm label "happy". -/
theorem spec_C6 (threshold s : Int) (x : String) (hne : x ≠ "")
    (hnf : x ∉ FRUSTRATION_EMOTIONS) :
    observeStep threshold s (some x) = observeStep threshold s (some "happy") := by
  have h1 : ("happy" : String) ≠ "" := by decide
  have h2 : ("happy" : String) ∉ FRUSTRATION_EMOTIONS := by decide
  simp [observeStep, hne, hnf, h1, h2]

/-- Witness for the amended C6: the unrecognized label "bored" behaves like
the calm label "happy". -/
theorem spec_C6_witness :
    observeStep 100 5 (some "bored") = observeStep 100 5 (some "happy") :=
  spec_C6 100 5 "bored" (by decide) (by decide)

/-- External calls the pi-sentry FER code can make when an observation is
processed. -/
inductive ExternalCall
  | empathyCallback
  | httpTriggerEmpathy
deriving DecidableEq, Repr

/-- Calls performed by FERService._trigger_empathy: the configured
empathy_callback when one was passed to __init__, otherwise a requests.get
to the local /trigger-empathy endpoint. -/
def triggerEmpathyCalls (hasCallback : Bool) : List ExternalCall :=
  if hasCallback then [ExternalCall.empathyCallback]
  else [ExternalCall.httpTriggerEmpathy]

/-- External calls made by one emotion-handling iteration of
FERService._monitor_loop: when the incremented counter reaches the threshold
the loop itself calls self._trigger_empathy(); no other branch performs an
external call. -/
def observeCalls (threshold : Int) (hasCallback : Bool) (counter : Int)
    (emotion : Option String) : List ExternalCall :=
  match emotion with
  | none => []
  | some e =>
    if e = "" then []
    else if e ∈ FRUSTRATION_EMOTIONS then
      if threshold ≤ counter + 1 then triggerEmpathyCalls hasCallback else []
    else []

/-- Counterexample to C7 as stated: at threshold 3 and counter 2, processing
an angry observation makes the monitoring loop itself invoke the empathy
callback — an external action — rather than leaving the action to a caller. -/
theorem spec_C7_counterexample :
    observeCalls 3 true 2 (some "angry") = [ExternalCall.empathyCallback] ∧
      (observeStep 3 2 (some "angry")).2 = true := by
  constructor <;> decide

/-- C7 amended. Processing one observation mutates only the frustration
counter, but a firing observation itself invokes the empathy action from
within the monitoring loop (the configured callback, otherwise an HTTP GET to
the local /trigger-empathy endpoint); every non-firing observation performs
no external call. There is no returned-event interface left to a caller. -/
theorem spec_C7 (threshold : Int) (hasCallback : Bool) (counter : Int)
    (emotion : Option String) :
    observeCalls threshold hasCallback counter emotion =
      if (observeStep threshold counter emotion).2 = true
      then triggerEmpathyCalls hasCallback else [] := by
  cases emotion with
  | none => simp [observeCalls, observeStep]
  | some x =>
    by_cases he : x = ""
    · simp [observeCalls, observeStep, he]
    by_cases hf : x ∈ FRUSTRATION_EMOTIONS
    · by_cases hfire : threshold ≤ counter + 1
      · simp [observeCalls, observeStep, he, hf, hfire]
      · simp [observeCalls, observeStep, he, hf, hfire]
    · by_cases hpos : 0 < counter
      · simp [observeCalls, observeStep, he, hf, hpos]
      · simp [observeCalls, observeStep, he, hf, hpos]

/-- Outcome of a Python call: a normal return or a raised exception. -/
inductive PyResult (α : Type)
  | ok (a : α)
  | exn (msg : String)

/-- Embedding of FERService._trigger_empathy with explicit collaborator
outcomes. cb is the outcome the configured empathy_callback would produce
(none when no callback was configured); http is the outcome of the
requests.get call to the /trigger-empathy endpoint. Each invocation in the
source is wrapped in its own try/except that only logs, so the method returns
normally whatever the collaborators do:
- callback path: `try: self.empathy_callback()` with
  `except Exception as e: logger.error(...)`;
- HTTP path: `try: response = requests.get(...)` where both status branches
  only log, with `except Exception as e: logger.error(...)`. -/
def triggerEmpathyRun (cb : Option (PyResult Unit)) (http : PyResult Nat) :
    PyResult Unit :=
  match cb with
  | some r =>
    match r with
    | .ok _ => .ok ()
    | .exn _ => .ok ()
  | none =>
    match http with
    | .ok _ => .ok ()
    | .exn _ => .ok ()

lemma triggerEmpathyRun_ok (cb : Option (PyResult Unit)) (http : PyResult Nat) :
    triggerEmpathyRun cb http = PyResult.ok () := by
  cases cb with
  | none => cases http <;> rfl
  | some r => cases r <;> rfl

/-- Emotion-handling iteration of _monitor_loop with explicit exception
propagation: had _trigger_empathy raised, the exception would escape before
the `self.frustration_counter = 0` reset on the next line (the loop's outer
try/except would then stop monitoring with the counter unreset). -/
def observeRun (threshold : Int) (cb : Option (PyResult Unit))
    (http : PyResult Nat) (counter : Int) (emotion : Option String) :
    PyResult (Int × Bool) :=
  match emotion with
  | none => .ok (counter, false)
  | some e =>
    if e = "" then .ok (counter, false)
    else if e ∈ FRUSTRATION_EMOTIONS then
      let c := counter + 1
      if threshold ≤ c then
        match triggerEmpathyRun cb http with
        | .ok _ => .ok (0, true)
        | .exn m => .exn m
      else .ok (c, false)
    else if 0 < counter then .ok (max 0 (counter - 2), false)
    else .ok (counter, false)

/-- C8. Collaborator failures never corrupt detector state: whatever the
outcome of the empathy callback or of the HTTP request (success, error
status, or raised exception), the observation completes normally with exactly
the same counter and fired flag as the pure step — in particular a firing
observation still resets the counter to 0. -/
theorem spec_C8 (threshold : Int) (cb : Option (PyResult Unit))
    (http : PyResult Nat) (counter : Int) (emotion : Option String) :
    observeRun threshold cb http counter emotion =
      PyResult.ok (observeStep threshold counter emotion) := by
  cases emotion with
  | none => simp [observeRun, observeStep]
  | some x =>
    by_cases he : x = ""
    · simp [observeRun, observeStep, he]
    by_cases hf : x ∈ FRUSTRATION_EMOTIONS
    · by_cases hfire : threshold ≤ counter + 1
      · simp [observeRun, observeStep, he, hf, hfire, triggerEmpathyRun_ok]
      · simp [observeRun, observeStep, he, hf, hfire]
    · by_cases hpos : 0 < counter
      · simp [observeRun, observeStep, he, hf, hpos]
      · simp [observeRun, observeStep, he, hf, hpos]

/-- Embedding of ButtonListener._handle_button_press (button_listener.py).
Wall-clock instants (time.time() values) and DEBOUNCE_TIME are modelled as
rationals. Source:
- `if current_time - self.last_press_time < DEBOUNCE_TIME: return` — the
  press is ignored and self.last_press_time keeps its old value;
- otherwise `self.last_press_time = current_time` and the press action runs
  (the configured button_callback, else self._trigger_laptop_help()).
The result is the new last_press_time together with whether the press action
ran. -/
def handleButtonPress (debounceTime currentTime lastPressTime : ℚ) :
    ℚ × Bool :=
  if currentTime - lastPressTime < debounceTime then (lastPressTime, false)
  else (currentTime, true)

/-- C9. The debouncer accepts a press if and only if at least DEBOUNCE_TIME
seconds have elapsed since the last accepted press; an ignored press keeps
the old timestamp, and an accepted press records the new timestamp and runs
the press action. -/
theorem spec_C9 (debounceTime currentTime lastPressTime : ℚ) :
    ((handleButtonPress debounceTime currentTime lastPressTime).2 = true ↔
        debounceTime ≤ currentTime - lastPressTime) ∧
      (handleButtonPress debounceTime currentTime lastPressTime).1 =
        if debounceTime ≤ currentTime - lastPressTime then currentTime
        else lastPressTime := by
  unfold handleButtonPress
  rcases lt_or_le (currentTime - lastPressTime) debounceTime with h | h
  · have h2 : ¬ debounceTime ≤ currentTime - lastPressTime := not_le.mpr h
    rw [if_pos h, if_neg h2]
    simp [h2]
  · have h2 : ¬ currentTime - lastPressTime < debounceTime := not_lt.mpr h
    rw [if_neg h2, if_pos h]
    simp [h]

end DebugDuck
